import Mathlib

set_option maxRecDepth 8000

/-!
Verification development for the data pipeline of
src/task1/src/componet/CustomCoinChart.tsx.

The component keeps six pieces of React state that the pipeline touches
(chartData, coinDetails, loading, error, analysisText, generatingAnalysis).
We embed the pipeline shallowly: machine numbers become rationals, the two
axios requests of a fetch cycle become explicit request outcomes
(ok / canceled / failed), the setState calls become an explicit list of
mutations folded over a state record, and the locale-dependent date
formatters become an inductive label type recording which formatter was
chosen together with the raw timestamp (their rendered text is a property
of the host locale, not of this source).
-/

/-- Which of the three date formatters of formatTime (source lines 100-108)
produced a chart label.  The rendered text of toLocaleTimeString and
toLocaleDateString depends on the host locale; the policy of which one is
applied, and to which timestamp, is what the source determines. -/
inductive TimeLabel where
  | hourMinute (timestamp : Int)
  | calendarDate (timestamp : Int)
  | monthYear (timestamp : Int)
deriving DecidableEq

/-- interface ChartData (source lines 25-28): one chart point. -/
structure ChartPoint where
  time : TimeLabel
  price : ℚ
deriving DecidableEq

/-- interface CoinDetails (source lines 30-37), as populated at runtime by
the object literal at lines 83-90.  The source assigns detailsRes.data.id
and .name directly, so a field absent upstream stays absent (undefined) in
the stored object; we record that with Option.  The symbol field is forced
through toUpperCase, so it is a plain string when construction succeeds. -/
structure CoinDetails where
  id : Option String
  name : Option String
  symbol : String
  image : String
  current_price : ℚ
  price_change_percentage_24h : ℚ
deriving DecidableEq

/-- The six useState cells of the component that the pipeline reads or
writes (source lines 43-48). -/
structure ComponentState where
  chartData : List ChartPoint
  coinDetails : Option CoinDetails
  loading : Bool
  error : Option String
  analysisText : String
  generatingAnalysis : Bool
deriving DecidableEq

/-- useState initial values (source lines 43-48): empty chart, no details,
loading true, no error, empty analysis, not generating. -/
def initialState : ComponentState :=
  { chartData := []
    coinDetails := none
    loading := true
    error := none
    analysisText := ""
    generatingAnalysis := false }

/-- The selection tuple driving a fetch cycle (source lines 40-42). -/
structure Selection where
  coinId : String
  currencyId : String
  days : Int
deriving DecidableEq

/-- formatTime (source lines 100-108): pick a formatter from the requested
range length. -/
def formatTime (days : Int) (timestamp : Int) : TimeLabel :=
  if days ≤ 1 then TimeLabel.hourMinute timestamp
  else if days ≤ 30 then TimeLabel.calendarDate timestamp
  else TimeLabel.monthYear timestamp

/-- Numeric value of the source expression +price.toFixed(2)
(source line 112).  toFixed rounds the magnitude to the nearest multiple
of 1/100, ties toward the larger candidate, and reattaches the sign. -/
def toFixed2Q (q : ℚ) : ℚ :=
  if q < 0 then -(((⌊(-q) * 100 + 1 / 2⌋ : ℤ) : ℚ) / 100)
  else ((⌊q * 100 + 1 / 2⌋ : ℤ) : ℚ) / 100

/-- formattedChartData (source lines 110-113): map every upstream
timestamp/price pair to a chart point. -/
def formattedChartData (days : Int) (prices : List (Int × ℚ)) : List ChartPoint :=
  prices.map (fun tp => { time := formatTime days tp.1, price := toFixed2Q tp.2 })

/-- The image object of the snapshot response (source line 87 reads
image?.small). -/
structure CoinImage where
  small : Option String
deriving DecidableEq

/-- The market_data object of the snapshot response (source lines 80-81).
current_price is a currency-id keyed map. -/
structure MarketData where
  current_price : Option (List (String × ℚ))
  price_change_percentage_24h : Option ℚ
deriving DecidableEq

/-- The JSON body of the first request (source lines 74-90).  Every field
the component touches is optional at runtime. -/
structure CoinDetailsResponse where
  id : Option String
  name : Option String
  symbol : Option String
  image : Option CoinImage
  market_data : Option MarketData
deriving DecidableEq

/-- The JSON body of the second request (source line 110 reads
chartRes.data.prices).  none models a body with no well-formed prices
array, on which the .map call at line 110 throws into the generic catch. -/
structure ChartResponse where
  prices : Option (List (Int × ℚ))
deriving DecidableEq

/-- Source line 80: market_data?.current_price?.[selectedCurrencyId] || 0.
The fallback of the JS or-operator is 0, so the falsy case (absent field or
value 0) coincides with defaulting to 0. -/
def currentPriceOf (d : CoinDetailsResponse) (cur : String) : ℚ :=
  match d.market_data with
  | none => 0
  | some md =>
    match md.current_price with
    | none => 0
    | some m =>
      match m.lookup cur with
      | none => 0
      | some v => v

/-- Source line 81: market_data?.price_change_percentage_24h || 0. -/
def priceChange24hOf (d : CoinDetailsResponse) : ℚ :=
  match d.market_data with
  | none => 0
  | some md => md.price_change_percentage_24h.getD 0

/-- The object literal passed to setCoinDetails (source lines 83-90).
Line 86 reads detailsRes.data.symbol.toUpperCase() with no optional
chaining, so a response without a symbol field throws a TypeError (caught
by the surrounding catch); every other field is either defaulted
(current_price, price_change_percentage_24h, image) or assigned as-is
(id, name). -/
def mkCoinDetails (cur : String) (d : CoinDetailsResponse) : Except String CoinDetails :=
  match d.symbol with
  | none => Except.error "TypeError: Cannot read properties of undefined (reading toUpperCase)"
  | some sym => Except.ok
      { id := d.id
        name := d.name
        symbol := sym.toUpper
        image := (d.image.bind fun i => i.small).getD ""
        current_price := currentPriceOf d cur
        price_change_percentage_24h := priceChange24hOf d }

/-- Outcome of one awaited axios request: a parsed body, a cancellation
(axios.isCancel true: the AbortController of the cycle fired while the
request was pending), or any other rejection (network failure, non-2xx
status, malformed JSON). -/
inductive ReqResult (α : Type) where
  | ok (val : α)
  | canceled
  | failed
deriving DecidableEq

/-- One setState call of the component. -/
inductive Mutation where
  | setChartData (v : List ChartPoint)
  | setCoinDetails (v : Option CoinDetails)
  | setLoading (v : Bool)
  | setError (v : Option String)
  | setAnalysisText (v : String)
  | setGeneratingAnalysis (v : Bool)
deriving DecidableEq

/-- Apply one setState call. -/
def applyMutation (s : ComponentState) : Mutation → ComponentState
  | Mutation.setChartData v => { s with chartData := v }
  | Mutation.setCoinDetails v => { s with coinDetails := v }
  | Mutation.setLoading v => { s with loading := v }
  | Mutation.setError v => { s with error := v }
  | Mutation.setAnalysisText v => { s with analysisText := v }
  | Mutation.setGeneratingAnalysis v => { s with generatingAnalysis := v }

/-- Apply a list of setState calls in program order. -/
def applyMutations (s : ComponentState) (ms : List Mutation) : ComponentState :=
  ms.foldl applyMutation s

/-- The error message of the generic catch branch (source line 121). -/
def failMsg : String := "Failed to fetch data. Please try again."

/-- Synchronous prefix of fetchCoinData (source lines 70-71): runs before
the first await. -/
def fetchStartMuts : List Mutation :=
  [Mutation.setLoading true, Mutation.setError none]

/-- The non-cancel catch branch (source lines 120-123). -/
def fetchErrorMuts : List Mutation :=
  [Mutation.setError (some failMsg), Mutation.setCoinDetails none, Mutation.setChartData []]

/-- The axios.isCancel catch branch (source lines 117-118): console.log
only, no setState call. -/
def fetchCancelMuts : List Mutation := []

/-- The finally block (source lines 125-127): runs on every completion,
cancellation included. -/
def fetchFinallyMuts : List Mutation := [Mutation.setLoading false]

/-- Everything a cancelled cycle does once its pending request rejects:
the isCancel catch branch followed by the finally block. -/
def cancelCompletionMuts : List Mutation := fetchCancelMuts ++ fetchFinallyMuts

/-- The setState calls of the try/catch body of fetchCoinData (source
lines 73-124) after the synchronous prefix, as a function of the outcomes
of the two requests.  A TypeError thrown while building the details object
(missing symbol) and a missing prices array both land in the generic catch
branch, exactly as a failed request does. -/
def fetchBodyMuts (sel : Selection) (r1 : ReqResult CoinDetailsResponse)
    (r2 : ReqResult ChartResponse) : List Mutation :=
  match r1 with
  | ReqResult.canceled => fetchCancelMuts
  | ReqResult.failed => fetchErrorMuts
  | ReqResult.ok d =>
    match mkCoinDetails sel.currencyId d with
    | Except.error _ => fetchErrorMuts
    | Except.ok cd =>
      Mutation.setCoinDetails (some cd) ::
        match r2 with
        | ReqResult.canceled => fetchCancelMuts
        | ReqResult.failed => fetchErrorMuts
        | ReqResult.ok c =>
          match c.prices with
          | none => fetchErrorMuts
          | some pts => [Mutation.setChartData (formattedChartData sel.days pts)]

/-- All setState calls of one run of fetchCoinData (source lines 69-128):
prefix, body, finally. -/
def fetchCycleMuts (sel : Selection) (r1 : ReqResult CoinDetailsResponse)
    (r2 : ReqResult ChartResponse) : List Mutation :=
  fetchStartMuts ++ fetchBodyMuts sel r1 r2 ++ fetchFinallyMuts

/-- State after one uninterrupted run of fetchCoinData. -/
def fetchCoinData (sel : Selection) (r1 : ReqResult CoinDetailsResponse)
    (r2 : ReqResult ChartResponse) (s : ComponentState) : ComponentState :=
  applyMutations s (fetchCycleMuts sel r1 r2)

/-- At which await point the AbortController of a cycle fired: while the
details request was pending, or after the details segment ran but while the
chart request was pending. -/
inductive AbortPoint where
  | beforeDetails
  | beforeChart
deriving DecidableEq

/-- The setState calls the superseded cycle managed to perform before its
abort point.  For beforeChart the details segment already ran, so the
snapshot cd built from the stale selection was already stored. -/
def preAbortMuts (cd : CoinDetails) : AbortPoint → List Mutation
  | AbortPoint.beforeDetails => fetchStartMuts
  | AbortPoint.beforeChart => fetchStartMuts ++ [Mutation.setCoinDetails (some cd)]

/-- Full mutation order of a supersession (source lines 65-135).  When the
selection changes, React runs the effect cleanup (controller.abort, line
133) and then the new effect body up to its first await, all inside the
same task; the abort rejects the pending promise of the stale cycle, whose
catch/finally continuation runs as a microtask after that task.  So the
order is: whatever the stale cycle already did, then the synchronous prefix
of the new cycle, then the cancel completion of the stale cycle, then the
remaining segments of the new cycle. -/
def supersededTrace (cdStale : CoinDetails) (p : AbortPoint) (selNew : Selection)
    (r1 : ReqResult CoinDetailsResponse) (r2 : ReqResult ChartResponse) : List Mutation :=
  preAbortMuts cdStale p ++ fetchStartMuts ++ cancelCompletionMuts
    ++ fetchBodyMuts selNew r1 r2 ++ fetchFinallyMuts

/-- A fetch cycle fails (reaches the non-cancel catch branch) exactly when
a request fails outright, the details object construction throws, or the
chart body has no prices array. -/
def cycleFailed (sel : Selection) (r1 : ReqResult CoinDetailsResponse)
    (r2 : ReqResult ChartResponse) : Bool :=
  match r1 with
  | ReqResult.canceled => false
  | ReqResult.failed => true
  | ReqResult.ok d =>
    match mkCoinDetails sel.currencyId d with
    | Except.error _ => true
    | Except.ok _ =>
      match r2 with
      | ReqResult.canceled => false
      | ReqResult.failed => true
      | ReqResult.ok c => c.prices.isNone

/-- One part of the generative-text response (source line 208 reads
parts[0].text). -/
structure LlmPart where
  text : String
deriving DecidableEq

/-- candidates[0].content of the generative-text response. -/
structure LlmContent where
  parts : Option (List LlmPart)
deriving DecidableEq

/-- One candidate of the generative-text response. -/
structure LlmCandidate where
  content : Option LlmContent
deriving DecidableEq

/-- Parsed JSON body of the generative-text response (source lines
202-208). -/
structure LlmResult where
  candidates : Option (List LlmCandidate)
deriving DecidableEq

/-- Outcome of the fetch to the generative-text provider: a non-ok HTTP
status (source lines 196-200 throw with the status and error body), or an
ok status with a parsed body. -/
inductive HttpOutcome where
  | fail (status : Nat) (body : String)
  | ok (result : LlmResult)
deriving DecidableEq

/-- The shape check of source lines 205-208: candidates present and
non-empty, first candidate has content with a non-empty parts list; then
take the text of the first part. -/
def extractText (r : LlmResult) : Option String :=
  match r.candidates with
  | some (c :: _) =>
    match c.content with
    | some ct =>
      match ct.parts with
      | some (p :: _) => some p.text
      | _ => none
    | none => none
  | _ => none

/-- Source line 151. -/
def noDataMsg : String := "No data available to generate analysis."

/-- Source line 157. -/
def generatingMsg : String := "Generating analysis..."

/-- Source line 212. -/
def unexpectedShapeMsg : String :=
  "Failed to generate analysis. Unexpected LLM response structure."

/-- Message of the Error thrown at source line 183. -/
def configErrMsg : String :=
  "Gemini API Key is not configured. Please set a valid API key or use environment variables."

/-- Message of the Error thrown at source line 199. -/
def httpErrMsg (status : Nat) (body : String) : String :=
  "LLM API request failed with status " ++ toString status ++ ": " ++ body

/-- The template of the catch branch at source line 216. -/
def errWrap (msg : String) : String :=
  "Error generating analysis: " ++ msg ++ ". Check console for details."

/-- generateAnalysis (source lines 149-222) as a state transformer.  The
source hardcodes the placeholder credential at line 180; we pass the key as
a parameter so that every branch of the function is expressible, and
instantiating apiKey with the placeholder gives exactly the behavior of the
shipped source (the guard at line 182 always throws, so the network call is
never reached).  The returned Bool records whether the fetch to the
generative-text provider was issued. -/
def generateAnalysis (st : ComponentState) (apiKey : String) (net : HttpOutcome) :
    ComponentState × Bool :=
  match st.coinDetails, st.chartData with
  | none, _ => ({ st with analysisText := noDataMsg }, false)
  | some _, [] => ({ st with analysisText := noDataMsg }, false)
  | some _, _ :: _ =>
    let st1 := { st with generatingAnalysis := true, analysisText := generatingMsg }
    if apiKey = "" ∨ apiKey = "YOUR_GEMINI_API_KEY_HERE" then
      ({ st1 with analysisText := errWrap configErrMsg, generatingAnalysis := false }, false)
    else
      match net with
      | HttpOutcome.fail status body =>
        ({ st1 with analysisText := errWrap (httpErrMsg status body), generatingAnalysis := false }, true)
      | HttpOutcome.ok r =>
        match extractText r with
        | some text => ({ st1 with analysisText := text, generatingAnalysis := false }, true)
        | none => ({ st1 with analysisText := unexpectedShapeMsg, generatingAnalysis := false }, true)

/-- Insert a comma after every third digit of a reversed digit list
(helper for the en-US grouping of toLocaleString). -/
def group3 : List Char → List Char
  | a :: b :: c :: d :: rest => a :: b :: c :: ',' :: group3 (d :: rest)
  | cs => cs

/-- Decimal digits of a natural number with en-US thousands grouping. -/
def groupIntDigits (n : Nat) : String :=
  String.mk ((group3 (Nat.toDigits 10 n).reverse).reverse)

/-- Left-pad the decimal digits of a number below 10^6 to six digits. -/
def padTo6 (n : Nat) : List Char :=
  let ds := Nat.toDigits 10 n
  List.replicate (6 - ds.length) '0' ++ ds

/-- Drop trailing zero digits but keep at least two digits. -/
def trimFracMin2 (ds : List Char) : List Char :=
  let r := (ds.reverse.dropWhile (fun c => c = '0')).reverse
  if r.length < 2 then ds.take 2 else r

/-- Nonnegative case of toLocaleString with en-US grouping, at least 2 and
at most 6 fraction digits (source lines 162 and 267): round to six fraction
digits, trim trailing zeros down to two, group the integer digits. -/
def toLocaleString2to6Nonneg (q : ℚ) : String :=
  let n : Nat := (⌊q * 1000000 + 1 / 2⌋).toNat
  groupIntDigits (n / 1000000) ++ "." ++ String.mk (trimFracMin2 (padTo6 (n % 1000000)))

/-- toLocaleString of a number with en-US grouping and 2 to 6 fraction
digits. -/
def toLocaleString2to6 (q : ℚ) : String :=
  if q < 0 then "-" ++ toLocaleString2to6Nonneg (-q) else toLocaleString2to6Nonneg q

/-- Nonnegative case of the JS toFixed(2) string. -/
def jsToFixed2Nonneg (q : ℚ) : String :=
  let n : Nat := (⌊q * 100 + 1 / 2⌋).toNat
  toString (n / 100) ++ "." ++ (if n % 100 < 10 then "0" else "") ++ toString (n % 100)

/-- The JS toFixed(2) string of a number (source line 163): round the
magnitude to two fraction digits, ties toward the larger candidate,
reattach the sign. -/
def jsToFixed2 (q : ℚ) : String :=
  if q < 0 then "-" ++ jsToFixed2Nonneg (-q) else jsToFixed2Nonneg q

/-- Nonnegative case of the default JS number-to-string conversion,
restricted to multiples of 1/100, the only prices the chart pipeline
produces (they all come out of toFixed2Q): shortest decimal, no trailing
zeros, no decimal point for integers. -/
def jsNumToStringNonneg (q : ℚ) : String :=
  let n : Nat := (⌊q * 100⌋).toNat
  let fr := n % 100
  if fr = 0 then toString (n / 100)
  else if fr % 10 = 0 then toString (n / 100) ++ "." ++ toString (fr / 10)
  else toString (n / 100) ++ "." ++ (if fr < 10 then "0" else "") ++ toString fr

/-- Default JS number-to-string conversion used by the template literal for
chart prices (source line 165). -/
def jsNumToString (q : ℚ) : String :=
  if q < 0 then "-" ++ jsNumToStringNonneg (-q) else jsNumToStringNonneg q

/-- JS template-literal interpolation of a possibly-undefined string: an
absent value prints as the text undefined. -/
def jsStringOf : Option String → String
  | some s => s
  | none => "undefined"

/-- One entry of the currency catalog (shape used at source lines 138-141
and 20-23). -/
structure CurrencyMeta where
  id : String
  name : String
  symbol : String
deriving DecidableEq

/-- Modelled from the spec: the module ../constants/crypto with
ALL_SUPPORTED_CURRENCIES is part of this repository but not under src/.
Spec sections 4.1 and 4.4 describe it as a static catalog mapping a
currency id to display metadata including a symbol, with unknown ids
degrading to an empty symbol, and spec section 8 fixes the symbol of usd
to the dollar sign. -/
def ALL_SUPPORTED_CURRENCIES : List CurrencyMeta :=
  [⟨"usd", "US Dollar", "$"⟩,
   ⟨"eur", "Euro", "€"⟩,
   ⟨"gbp", "British Pound", "£"⟩,
   ⟨"inr", "Indian Rupee", "₹"⟩,
   ⟨"jpy", "Japanese Yen", "¥"⟩]

/-- getCurrencySymbol (source lines 138-141): catalog lookup, empty string
when unknown. -/
def getCurrencySymbol (currencyId : String) : String :=
  match ALL_SUPPORTED_CURRENCIES.find? (fun c => c.id == currencyId) with
  | some c => c.symbol
  | none => ""

/-- getPriceColor (source lines 143-147). -/
def getPriceColor (percentage : ℚ) : String :=
  if percentage > 0 then "#16c784"
  else if percentage < 0 then "#ea3943"
  else "inherit"

/-- Concatenation of a list of template pieces. -/
def joinParts : List String → String
  | [] => ""
  | p :: ps => p ++ joinParts ps

/-- The pieces of the template literal at source lines 161-167, in order.
renderLabel stands for the locale rendering of a chart label (the stored
time strings). -/
def promptParts (cd : CoinDetails) (selectedCurrencyId : String) (days : Int)
    (chartData : List ChartPoint) (renderLabel : TimeLabel → String) : List String :=
  ["Provide a brief market analysis for ",
   jsStringOf cd.name,
   " (",
   cd.symbol,
   ") in ",
   selectedCurrencyId.toUpper,
   ".\n      Current Price: ",
   getCurrencySymbol selectedCurrencyId ++ toLocaleString2to6 cd.current_price,
   "\n      24h Price Change: ",
   jsToFixed2 cd.price_change_percentage_24h ++ "%",
   "\n      Historical data points (last ",
   toString days,
   " days, time: price):\n      ",
   String.intercalate "\n"
     (chartData.map (fun d => renderLabel d.time ++ ": " ++ jsNumToString d.price)),
   "\n\n      Focus on the recent price movement (up/down trend), volatility, and potential implications based on the provided data. Keep it concise, around 100-150 words."]

/-- The prompt of generateAnalysis (source lines 161-167). -/
def buildPrompt (cd : CoinDetails) (selectedCurrencyId : String) (days : Int)
    (chartData : List ChartPoint) (renderLabel : TimeLabel → String) : String :=
  joinParts (promptParts cd selectedCurrencyId days chartData renderLabel)

/-- The string s has t as a contiguous substring. -/
def strContains (s t : String) : Prop :=
  ∃ a b : List Char, s.data = a ++ t.data ++ b

/-- A simple concrete label renderer, used only to instantiate theorems at
concrete inputs. -/
def sampleRenderLabel : TimeLabel → String
  | TimeLabel.hourMinute ts => toString ts
  | TimeLabel.calendarDate ts => toString ts
  | TimeLabel.monthYear ts => toString ts

/-- The default selection of the component (source lines 40-42). -/
def bitcoinSel : Selection := ⟨"bitcoin", "usd", 7⟩

/-- A concrete bitcoin snapshot, as the details segment would store it for
the bitcoin/usd selection of the spec scenario (price 65000, 24h change
minus 2.5 percent). -/
def btcDetails : CoinDetails :=
  { id := some "bitcoin"
    name := some "Bitcoin"
    symbol := "BTC"
    image := ""
    current_price := 65000
    price_change_percentage_24h := mkRat (-5) 2 }

/-- The superseding selection of the spec scenario. -/
def ethSel : Selection := ⟨"ethereum", "eur", 7⟩

/-- A well-formed details body for the superseding ethereum/eur cycle. -/
def ethResp : CoinDetailsResponse :=
  { id := some "ethereum"
    name := some "Ethereum"
    symbol := some "eth"
    image := none
    market_data := some { current_price := some [("eur", 3000)]
                          price_change_percentage_24h := some (mkRat 6 5) } }

/-- A well-formed chart body for the superseding ethereum/eur cycle. -/
def ethChart : ChartResponse := { prices := some [(1000, 2999)] }

/-- The full mutation order of the spec supersession scenario: the
bitcoin/usd cycle is aborted while its chart request is pending (so its
snapshot segment already ran), and the ethereum/eur cycle completes. -/
def c2Trace : List Mutation :=
  supersededTrace btcDetails AbortPoint.beforeChart ethSel
    (ReqResult.ok ethResp) (ReqResult.ok ethChart)

/-- A details body with no symbol field. -/
def noSymbolResp : CoinDetailsResponse :=
  { id := some "bitcoin"
    name := some "Bitcoin"
    symbol := none
    image := none
    market_data := none }

/-- A details body with a symbol but no market_data and no image. -/
def noMarketDataResp : CoinDetailsResponse :=
  { id := some "bitcoin"
    name := some "Bitcoin"
    symbol := some "btc"
    image := none
    market_data := none }

/-- A seven-point price series for the bitcoin/usd spec scenario. -/
def c9Chart : List ChartPoint :=
  [⟨TimeLabel.calendarDate 0, 64000⟩,
   ⟨TimeLabel.calendarDate 1, mkRat 128501 2⟩,
   ⟨TimeLabel.calendarDate 2, 63900⟩,
   ⟨TimeLabel.calendarDate 3, 64500⟩,
   ⟨TimeLabel.calendarDate 4, 65100⟩,
   ⟨TimeLabel.calendarDate 5, 64800⟩,
   ⟨TimeLabel.calendarDate 6, 65000⟩]

/-!  Theorems.  -/

/-- Appending strings appends their character data. -/
theorem data_append (s t : String) : (s ++ t).data = s.data ++ t.data := rfl

/-- Every piece of a joined list of pieces is a contiguous substring of the
result. -/
theorem strContains_of_mem {t : String} : ∀ {parts : List String},
    t ∈ parts → strContains (joinParts parts) t := by
  intro parts h
  induction parts with
  | nil => cases h
  | cons p ps ih =>
    cases h with
    | head => exact ⟨[], (joinParts ps).data, by simp [joinParts, data_append]⟩
    | tail _ hmem =>
      obtain ⟨a, b, hab⟩ := ih hmem
      exact ⟨p.data ++ a, b, by simp [joinParts, data_append, hab]⟩

/-- C1: the claim says the completion of a cancelled fetch cycle performs
no state mutation at all, the loading flag included.  It is false: the
finally block at source lines 125-127 runs on cancellation too, so the
completion of a cancelled cycle sets loading to false; from the initial
state (loading true) the state observably changes. -/
theorem c1_counterexample :
    applyMutations initialState cancelCompletionMuts ≠ initialState := by decide

/-- C1 amended: the completion of a cancelled fetch cycle (the isCancel
catch branch plus the finally block) leaves chartData, coinDetails and
error unchanged and surfaces no error; its only mutation is setting the
loading flag to false. -/
theorem c1_cancel_completion (s : ComponentState) :
    applyMutations s cancelCompletionMuts = { s with loading := false } := rfl

/-- C2: the claim also asserts that no transient display of the stale
cycle coin data occurs under the new selection.  It is false when the
stale cycle is aborted after its details segment already ran: in the spec
scenario, after the ethereum/eur cycle has started (trace position 5, past
the three mutations of the stale cycle and the two-step synchronous prefix
of the new cycle), coinDetails still holds the bitcoin snapshot, and only
the final state drops it. -/
theorem c2_counterexample :
    ¬ (∀ k, 3 ≤ k →
        (applyMutations initialState (c2Trace.take k)).coinDetails ≠ some btcDetails) :=
  fun h => h 5 (by decide) (by decide)

/-- C2 amended: last selection wins in the final state.  Whenever a cycle
is superseded at either await point and the new cycle itself is not
cancelled, the state after the whole interleaving equals the state of an
uninterrupted run of the new cycle: no mutation of the stale cycle
survives once the new cycle has produced its result. -/
theorem c2_last_selection_wins (s : ComponentState) (cdStale : CoinDetails)
    (p : AbortPoint) (selNew : Selection) (r1 : ReqResult CoinDetailsResponse)
    (r2 : ReqResult ChartResponse) (h1 : r1 ≠ ReqResult.canceled)
    (h2 : r2 ≠ ReqResult.canceled) :
    applyMutations s (supersededTrace cdStale p selNew r1 r2) =
      fetchCoinData selNew r1 r2 s := by
  cases r1 with
  | canceled => exact absurd rfl h1
  | failed => cases p <;> rfl
  | ok d =>
    obtain ⟨did, dname, dsym, dimg, dmd⟩ := d
    cases r2 with
    | canceled => exact absurd rfl h2
    | failed => cases p <;> cases dsym <;> rfl
    | ok c =>
      obtain ⟨cp⟩ := c
      cases p <;> cases dsym <;> cases cp <;> rfl

/-- C2 witness: the amended theorem applied to the concrete spec
scenario. -/
theorem c2_witness :
    (ReqResult.ok ethResp ≠ ReqResult.canceled) ∧
    applyMutations initialState
        (supersededTrace btcDetails AbortPoint.beforeChart ethSel
          (ReqResult.ok ethResp) (ReqResult.ok ethChart)) =
      fetchCoinData ethSel (ReqResult.ok ethResp) (ReqResult.ok ethChart) initialState :=
  ⟨by simp, c2_last_selection_wins initialState btcDetails AbortPoint.beforeChart ethSel
      (ReqResult.ok ethResp) (ReqResult.ok ethChart) (by simp) (by simp)⟩

/-- C3: every non-cancelled failing fetch cycle (failed request, details
construction throw, or missing prices array) ends with the failure
message set and both the snapshot and the series cleared. -/
theorem c3_failure_clears (sel : Selection) (r1 : ReqResult CoinDetailsResponse)
    (r2 : ReqResult ChartResponse) (s : ComponentState)
    (h : cycleFailed sel r1 r2 = true) :
    fetchCoinData sel r1 r2 s =
      { s with error := some failMsg, coinDetails := none, chartData := [],
               loading := false } := by
  cases r1 with
  | canceled => simp [cycleFailed] at h
  | failed => rfl
  | ok d =>
    obtain ⟨did, dname, dsym, dimg, dmd⟩ := d
    cases dsym with
    | none => rfl
    | some s2 =>
      cases r2 with
      | canceled => simp [cycleFailed, mkCoinDetails] at h
      | failed => rfl
      | ok c =>
        obtain ⟨cp⟩ := c
        cases cp with
        | none => rfl
        | some pts => simp [cycleFailed, mkCoinDetails] at h

/-- C3 witness: a failed details request from the default state. -/
theorem c3_witness :
    cycleFailed bitcoinSel ReqResult.failed ReqResult.failed = true ∧
    fetchCoinData bitcoinSel ReqResult.failed ReqResult.failed initialState =
      { initialState with error := some failMsg, coinDetails := none, chartData := [],
                          loading := false } :=
  ⟨rfl, c3_failure_clears bitcoinSel ReqResult.failed ReqResult.failed initialState rfl⟩

/-- Concrete evaluation of the rounding at 1. -/
theorem toFixed2Q_one : toFixed2Q 1 = 1 := by
  have hneg : ¬ ((1 : ℚ) < 0) := by norm_num
  have hf : (⌊(1 : ℚ) * 100 + 1 / 2⌋ : ℤ) = 100 := by
    rw [Int.floor_eq_iff]
    norm_num
  unfold toFixed2Q
  rw [if_neg hneg, hf]
  norm_num

/-- Concrete evaluation of the rounding at 1234.5. -/
theorem toFixed2Q_at_1234_5 : toFixed2Q 1234.5 = 1234.50 := by
  have hneg : ¬ ((1234.5 : ℚ) < 0) := by norm_num
  have hf : (⌊(1234.5 : ℚ) * 100 + 1 / 2⌋ : ℤ) = 123450 := by
    rw [Int.floor_eq_iff]
    norm_num
  unfold toFixed2Q
  rw [if_neg hneg, hf]
  norm_num

/-- Concrete evaluation of the rounding at 1234.567. -/
theorem toFixed2Q_at_1234_567 : toFixed2Q 1234.567 = 1234.57 := by
  have hneg : ¬ ((1234.567 : ℚ) < 0) := by norm_num
  have hf : (⌊(1234.567 : ℚ) * 100 + 1 / 2⌋ : ℤ) = 123457 := by
    rw [Int.floor_eq_iff]
    norm_num
  unfold toFixed2Q
  rw [if_neg hneg, hf]
  norm_num

/-- C4: every label of a formatted series follows the range-keyed policy
of formatTime: hour-minute for ranges of at most one day, calendar date up
to thirty days, month plus year beyond. -/
theorem c4_label_policy (days : Int) (prices : List (Int × ℚ)) (p : ChartPoint)
    (hp : p ∈ formattedChartData days prices) :
    (days ≤ 1 → ∃ ts, p.time = TimeLabel.hourMinute ts) ∧
    (1 < days → days ≤ 30 → ∃ ts, p.time = TimeLabel.calendarDate ts) ∧
    (30 < days → ∃ ts, p.time = TimeLabel.monthYear ts) := by
  obtain ⟨⟨ts, raw⟩, hmem, rfl⟩ := List.mem_map.mp hp
  refine ⟨?_, ?_, ?_⟩
  · intro h
    refine ⟨ts, ?_⟩
    show formatTime days ts = TimeLabel.hourMinute ts
    unfold formatTime
    rw [if_pos h]
  · intro h1 h2
    refine ⟨ts, ?_⟩
    show formatTime days ts = TimeLabel.calendarDate ts
    unfold formatTime
    rw [if_neg (by omega), if_pos h2]
  · intro h
    refine ⟨ts, ?_⟩
    show formatTime days ts = TimeLabel.monthYear ts
    unfold formatTime
    rw [if_neg (by omega), if_neg (by omega)]

/-- C4 witness: the default seven-day range labels with the calendar-date
formatter. -/
theorem c4_witness :
    ((⟨TimeLabel.calendarDate 0, 1⟩ : ChartPoint) ∈ formattedChartData 7 [(0, 1)]) ∧
    (((7 : Int) ≤ 1 →
        ∃ ts, (⟨TimeLabel.calendarDate 0, (1 : ℚ)⟩ : ChartPoint).time = TimeLabel.hourMinute ts) ∧
     ((1 : Int) < 7 → (7 : Int) ≤ 30 →
        ∃ ts, (⟨TimeLabel.calendarDate 0, (1 : ℚ)⟩ : ChartPoint).time = TimeLabel.calendarDate ts) ∧
     ((30 : Int) < 7 →
        ∃ ts, (⟨TimeLabel.calendarDate 0, (1 : ℚ)⟩ : ChartPoint).time = TimeLabel.monthYear ts)) :=
  ⟨by simp [formattedChartData, formatTime, toFixed2Q_one],
   c4_label_policy 7 [(0, 1)] ⟨TimeLabel.calendarDate 0, 1⟩
     (by simp [formattedChartData, formatTime, toFixed2Q_one])⟩

/-- C5: every chart price is the upstream price put through the toFixed(2)
rounding, and therefore an integer multiple of one hundredth; at the
concrete inputs of the claim, 1234.5 rounds to 1234.50 and 1234.567 rounds
to 1234.57. -/
theorem c5_price_rounding :
    (∀ (days : Int) (prices : List (Int × ℚ)) (p : ChartPoint),
      p ∈ formattedChartData days prices →
        ∃ ts raw, (ts, raw) ∈ prices ∧ p.price = toFixed2Q raw ∧
          ∃ n : ℤ, p.price * 100 = (n : ℚ)) ∧
    toFixed2Q 1234.5 = 1234.50 ∧ toFixed2Q 1234.567 = 1234.57 := by
  refine ⟨?_, toFixed2Q_at_1234_5, toFixed2Q_at_1234_567⟩
  intro days prices p hp
  obtain ⟨⟨ts, raw⟩, hmem, rfl⟩ := List.mem_map.mp hp
  refine ⟨ts, raw, hmem, rfl, ?_⟩
  show ∃ n : ℤ, toFixed2Q raw * 100 = (n : ℚ)
  unfold toFixed2Q
  split
  · exact ⟨-⌊(-raw) * 100 + 1 / 2⌋, by push_cast; ring⟩
  · exact ⟨⌊raw * 100 + 1 / 2⌋, by ring⟩

/-- C5 witness: the general rounding statement applied to a one-point
series at the concrete price of the claim. -/
theorem c5_witness :
    ((⟨TimeLabel.calendarDate 0, 1234.57⟩ : ChartPoint) ∈ formattedChartData 7 [(0, 1234.567)]) ∧
    (∃ ts raw, (ts, raw) ∈ [((0 : Int), (1234.567 : ℚ))] ∧
      (⟨TimeLabel.calendarDate 0, (1234.57 : ℚ)⟩ : ChartPoint).price = toFixed2Q raw ∧
      ∃ n : ℤ, (⟨TimeLabel.calendarDate 0, (1234.57 : ℚ)⟩ : ChartPoint).price * 100 = (n : ℚ)) :=
  ⟨by simp [formattedChartData, formatTime, toFixed2Q_at_1234_567],
   c5_price_rounding.1 7 [(0, 1234.567)] ⟨TimeLabel.calendarDate 0, 1234.57⟩
     (by simp [formattedChartData, formatTime, toFixed2Q_at_1234_567])⟩

/-- C6: when the nested market-data fields are absent (market_data itself,
its current_price map, the requested currency entry, or the percentage
field), the snapshot is still produced, with zero substituted for the
missing price and percentage and the empty string for a missing image.
The symbol hypothesis records that the response carries a symbol field,
which the construction reads unconditionally. -/
theorem c6_defaults (cur : String) (d : CoinDetailsResponse) (sym : String)
    (hsym : d.symbol = some sym) :
    ∃ cd, mkCoinDetails cur d = Except.ok cd ∧
      ((d.market_data.bind fun m => m.current_price) = none → cd.current_price = 0) ∧
      ((d.market_data.bind fun m => m.price_change_percentage_24h) = none →
        cd.price_change_percentage_24h = 0) ∧
      (∀ m, (d.market_data.bind fun m2 => m2.current_price) = some m →
        m.lookup cur = none → cd.current_price = 0) ∧
      ((d.image.bind fun i => i.small) = none → cd.image = "") := by
  obtain ⟨did, dname, dsym, dimg, dmd⟩ := d
  cases dsym with
  | none => simp at hsym
  | some s2 =>
    refine ⟨_, rfl, ?_, ?_, ?_, ?_⟩
    · intro h
      cases dmd with
      | none => rfl
      | some md =>
        have h2 : md.current_price = none := by simpa using h
        show currentPriceOf ⟨did, dname, some s2, dimg, some md⟩ cur = 0
        simp [currentPriceOf, h2]
    · intro h
      cases dmd with
      | none => rfl
      | some md =>
        have h2 : md.price_change_percentage_24h = none := by simpa using h
        show priceChange24hOf ⟨did, dname, some s2, dimg, some md⟩ = 0
        simp [priceChange24hOf, h2]
    · intro m hm hlook
      cases dmd with
      | none => simp at hm
      | some md =>
        have h2 : md.current_price = some m := by simpa using hm
        show currentPriceOf ⟨did, dname, some s2, dimg, some md⟩ cur = 0
        simp [currentPriceOf, h2, hlook]
    · intro h
      show (Option.getD (dimg.bind fun i => i.small) "") = ""
      rw [h]
      rfl

/-- C6 witness: a response with a symbol but no market_data and no image
still yields a snapshot with zero price, zero percentage and empty
image. -/
theorem c6_witness :
    noMarketDataResp.symbol = some "btc" ∧
    (∃ cd, mkCoinDetails "usd" noMarketDataResp = Except.ok cd ∧
      ((noMarketDataResp.market_data.bind fun m => m.current_price) = none →
        cd.current_price = 0) ∧
      ((noMarketDataResp.market_data.bind fun m => m.price_change_percentage_24h) = none →
        cd.price_change_percentage_24h = 0) ∧
      (∀ m, (noMarketDataResp.market_data.bind fun m2 => m2.current_price) = some m →
        m.lookup "usd" = none → cd.current_price = 0) ∧
      ((noMarketDataResp.image.bind fun i => i.small) = none → cd.image = "")) :=
  ⟨rfl, c6_defaults "usd" noMarketDataResp "btc" rfl⟩

/-- C7: the claim says every missing field, the top-level symbol, name and
image included, is replaced by a default.  It is false for the symbol: the
construction reads symbol.toUpperCase without a guard, so a response with
no symbol field throws a TypeError (absorbed by the fetch catch branch) and
no snapshot is produced at all. -/
theorem c7_counterexample :
    mkCoinDetails "usd" noSymbolResp =
      Except.error "TypeError: Cannot read properties of undefined (reading toUpperCase)" ∧
    ∀ cd, mkCoinDetails "usd" noSymbolResp ≠ Except.ok cd :=
  ⟨rfl, fun cd h => by simp [mkCoinDetails, noSymbolResp] at h⟩

/-- C7 amended: when the response carries a symbol field the construction
never throws: the market-data fields and the image are defaulted, while the
top-level id and name are carried through exactly as they arrive (absent
stays absent, with no empty-string default). -/
theorem c7_amended (cur : String) (d : CoinDetailsResponse) (sym : String)
    (hsym : d.symbol = some sym) :
    ∃ cd, mkCoinDetails cur d = Except.ok cd ∧
      cd.id = d.id ∧ cd.name = d.name ∧ cd.symbol = sym.toUpper ∧
      ((d.image.bind fun i => i.small) = none → cd.image = "") ∧
      (d.market_data = none → cd.current_price = 0 ∧ cd.price_change_percentage_24h = 0) := by
  obtain ⟨did, dname, dsym, dimg, dmd⟩ := d
  cases dsym with
  | none => simp at hsym
  | some s2 =>
    have hs : s2 = sym := by simpa using hsym
    subst hs
    refine ⟨_, rfl, rfl, rfl, rfl, ?_, ?_⟩
    · intro h
      show (Option.getD (dimg.bind fun i => i.small) "") = ""
      rw [h]
      rfl
    · intro h
      have h2 : dmd = none := h
      subst h2
      exact ⟨rfl, rfl⟩

/-- C7 amended witness: the concrete response without market_data. -/
theorem c7_witness :
    noMarketDataResp.symbol = some "btc" ∧
    (∃ cd, mkCoinDetails "usd" noMarketDataResp = Except.ok cd ∧
      cd.id = noMarketDataResp.id ∧ cd.name = noMarketDataResp.name ∧
      cd.symbol = String.toUpper "btc" ∧
      ((noMarketDataResp.image.bind fun i => i.small) = none → cd.image = "") ∧
      (noMarketDataResp.market_data = none →
        cd.current_price = 0 ∧ cd.price_change_percentage_24h = 0)) :=
  ⟨rfl, c7_amended "usd" noMarketDataResp "btc" rfl⟩

/-- C8: when the snapshot is absent or the series is empty, the analysis
generator sets the no-data message and returns at once, and the network
flag stays false: no request to the generative-text provider is made. -/
theorem c8_no_data (st : ComponentState) (apiKey : String) (net : HttpOutcome)
    (h : st.coinDetails = none ∨ st.chartData = []) :
    generateAnalysis st apiKey net = ({ st with analysisText := noDataMsg }, false) := by
  obtain ⟨cdata, cdet, load, err, atext, gen⟩ := st
  cases cdet with
  | none => rfl
  | some v =>
    cases cdata with
    | nil => rfl
    | cons a as =>
      rcases h with h | h <;> simp at h

/-- C8 witness: the initial state has no snapshot, so the generator
finishes without a network call. -/
theorem c8_witness :
    (initialState.coinDetails = none ∨ initialState.chartData = []) ∧
    generateAnalysis initialState "" (HttpOutcome.fail 0 "") =
      ({ initialState with analysisText := noDataMsg }, false) :=
  ⟨Or.inl rfl, c8_no_data initialState "" (HttpOutcome.fail 0 "") (Or.inl rfl)⟩

/-- Concrete evaluation: the 24h change of the bitcoin scenario renders as
the percentage string of the claim. -/
theorem jsToFixed2_btc :
    jsToFixed2 btcDetails.price_change_percentage_24h ++ "%" = "-2.50%" := by
  have hlt : (mkRat (-5) 2 : ℚ) < 0 := by norm_num [Rat.mkRat_eq_div]
  have hf : (⌊(-(mkRat (-5) 2) : ℚ) * 100 + 1 / 2⌋ : ℤ) = 250 := by
    rw [Int.floor_eq_iff]
    norm_num [Rat.mkRat_eq_div]
  show jsToFixed2 (mkRat (-5) 2) ++ "%" = "-2.50%"
  unfold jsToFixed2
  rw [if_pos hlt]
  simp only [jsToFixed2Nonneg]
  rw [hf]
  decide

/-- Concrete evaluation: the current price of the bitcoin scenario renders
with the usd symbol and en-US grouping as the string of the claim. -/
theorem usdPrice_btc :
    getCurrencySymbol "usd" ++ toLocaleString2to6 btcDetails.current_price = "$65,000.00" := by
  have hneg : ¬ ((65000 : ℚ) < 0) := by norm_num
  have hf : (⌊(65000 : ℚ) * 1000000 + 1 / 2⌋ : ℤ) = 65000000000 := by
    rw [Int.floor_eq_iff]
    norm_num
  show getCurrencySymbol "usd" ++ toLocaleString2to6 65000 = "$65,000.00"
  unfold toLocaleString2to6
  rw [if_neg hneg]
  simp only [toLocaleString2to6Nonneg]
  rw [hf]
  decide

/-- C9: for any snapshot, currency, range and non-empty series the prompt
embeds the display name, the symbol, the upper-cased currency code, the
currency symbol followed by the 2-to-6-fraction-digit price, the 24h change
rendered to two decimals followed by the percent sign, and the ordered
label-price list; and in the bitcoin/usd scenario with price 65000 and
change minus 2.5 it contains the literal substrings of the claim.  The
prompt is a function of its inputs, so determinism is by construction. -/
theorem c9_prompt_embeds (cd : CoinDetails) (cur : String) (days : Int)
    (chart : List ChartPoint) (renderLabel : TimeLabel → String)
    (_hchart : chart ≠ []) :
    strContains (buildPrompt cd cur days chart renderLabel) (jsStringOf cd.name) ∧
    strContains (buildPrompt cd cur days chart renderLabel) cd.symbol ∧
    strContains (buildPrompt cd cur days chart renderLabel) cur.toUpper ∧
    strContains (buildPrompt cd cur days chart renderLabel)
      (getCurrencySymbol cur ++ toLocaleString2to6 cd.current_price) ∧
    strContains (buildPrompt cd cur days chart renderLabel)
      (jsToFixed2 cd.price_change_percentage_24h ++ "%") ∧
    strContains (buildPrompt cd cur days chart renderLabel)
      (String.intercalate "\n"
        (chart.map (fun d => renderLabel d.time ++ ": " ++ jsNumToString d.price))) ∧
    strContains (buildPrompt btcDetails "usd" 7 c9Chart renderLabel) "-2.50%" ∧
    strContains (buildPrompt btcDetails "usd" 7 c9Chart renderLabel) "$65,000.00" := by
  refine ⟨?_, ?_, ?_, ?_, ?_, ?_, ?_, ?_⟩
  · exact strContains_of_mem (by simp [promptParts])
  · exact strContains_of_mem (by simp [promptParts])
  · exact strContains_of_mem (by simp [promptParts])
  · exact strContains_of_mem (by simp [promptParts])
  · exact strContains_of_mem (by simp [promptParts])
  · exact strContains_of_mem (by simp [promptParts])
  · rw [← jsToFixed2_btc]
    exact strContains_of_mem (by simp [promptParts])
  · rw [← usdPrice_btc]
    exact strContains_of_mem (by simp [promptParts])

/-- C9 witness: the scenario series is non-empty and the prompt built from
it contains the formatted price literal. -/
theorem c9_witness :
    c9Chart ≠ [] ∧
    strContains (buildPrompt btcDetails "usd" 7 c9Chart sampleRenderLabel) "$65,000.00" :=
  ⟨by simp [c9Chart],
   (c9_prompt_embeds btcDetails "usd" 7 c9Chart sampleRenderLabel
      (by simp [c9Chart])).2.2.2.2.2.2.2⟩

/-- C10: whatever the outcome (no-data return, configuration error, failed
request, unexpected response shape, or success), the analysis generator
leaves the fetched chart state alone: chartData, coinDetails, error and
loading are unchanged, and the generating flag ends false.  The hypothesis
records the only entry state the component allows: the trigger button is
disabled while a generation is in flight. -/
theorem c10_frame (st : ComponentState) (apiKey : String) (net : HttpOutcome)
    (h : st.generatingAnalysis = false) :
    (generateAnalysis st apiKey net).1.chartData = st.chartData ∧
    (generateAnalysis st apiKey net).1.coinDetails = st.coinDetails ∧
    (generateAnalysis st apiKey net).1.error = st.error ∧
    (generateAnalysis st apiKey net).1.loading = st.loading ∧
    (generateAnalysis st apiKey net).1.generatingAnalysis = false := by
  obtain ⟨cdata, cdet, load, err, atext, gen⟩ := st
  have hg : gen = false := h
  subst hg
  cases cdet with
  | none => exact ⟨rfl, rfl, rfl, rfl, rfl⟩
  | some v =>
    cases cdata with
    | nil => exact ⟨rfl, rfl, rfl, rfl, rfl⟩
    | cons a as =>
      by_cases hk : apiKey = "" ∨ apiKey = "YOUR_GEMINI_API_KEY_HERE"
      · simp [generateAnalysis, hk]
      · cases net with
        | fail status body => simp [generateAnalysis, hk]
        | ok r =>
          cases hx : extractText r with
          | none => simp [generateAnalysis, hk, hx]
          | some text => simp [generateAnalysis, hk, hx]

/-- C10 witness: a failed provider call from the initial state leaves the
chart state untouched. -/
theorem c10_witness :
    initialState.generatingAnalysis = false ∧
    ((generateAnalysis initialState "k" (HttpOutcome.fail 500 "boom")).1.chartData
        = initialState.chartData ∧
     (generateAnalysis initialState "k" (HttpOutcome.fail 500 "boom")).1.coinDetails
        = initialState.coinDetails ∧
     (generateAnalysis initialState "k" (HttpOutcome.fail 500 "boom")).1.error
        = initialState.error ∧
     (generateAnalysis initialState "k" (HttpOutcome.fail 500 "boom")).1.loading
        = initialState.loading ∧
     (generateAnalysis initialState "k" (HttpOutcome.fail 500 "boom")).1.generatingAnalysis
        = false) :=
  ⟨rfl, c10_frame initialState "k" (HttpOutcome.fail 500 "boom") rfl⟩
